import Mathlib

/-!
Verification of `ProjetGo/Vehicules.go` — a program that builds a filtered
query for a public vehicle-data API, fetches and decodes the JSON response,
prints the records and exports them to JSON and CSV files.

The Go program is shallowly embedded: pure computations (query building,
envelope decoding, serialization) become Lean functions; the effectful parts
(HTTP transport, file system) are parameterized by explicit outcome oracles.
JSON values produced by Go's `encoding/json` unmarshalling into
`interface{}` are modelled by the inductive `Json` below, with numbers as
rationals (Go reads every JSON number as `float64`).
-/

/-- Generic structured value, as produced by `json.Unmarshal` into
`interface{}`: null, booleans, numbers (all numbers arrive as `float64`,
modelled as `Rat`), strings, arrays and objects. -/
inductive Json where
  | null : Json
  | bool (b : Bool) : Json
  | num (q : Rat) : Json
  | str (s : String) : Json
  | arr (elems : List Json) : Json
  | obj (fields : List (String × Json)) : Json
deriving Repr

/-- First value bound to `key` in an object's field list; `none` models a
Go map lookup that misses (yielding a nil `interface{}`). -/
def jlookup : List (String × Json) → String → Option Json
  | [], _ => none
  | (k, v) :: rest, key => if k = key then some v else jlookup rest key

/-- Go type assertion `.(string)` in comma-ok form. -/
def Json.asString : Json → Option String
  | .str s => some s
  | _ => none

/-- Go type assertion `.(float64)` in comma-ok form. -/
def Json.asNum : Json → Option Rat
  | .num q => some q
  | _ => none

/-- Go type assertion `.(map[string]interface\x7b\x7d)` in comma-ok form. -/
def Json.asObj : Json → Option (List (String × Json))
  | .obj o => some o
  | _ => none

/-- Go type assertion `.([]interface\x7b\x7d)` in comma-ok form. -/
def Json.asArr : Json → Option (List Json)
  | .arr l => some l
  | _ => none

/-- Go conversion `int(f)` on a `float64`: truncation toward zero,
expressed on rationals by T-division of numerator by denominator. -/
def ratTrunc (q : Rat) : Int := Int.tdiv q.num (Int.ofNat q.den)

/-- The `Vehicle` struct of the Go source (`cylinders` is a Go `int`). -/
structure Vehicle where
  make : String
  model : String
  year : String
  cylinders : Int
deriving Repr, DecidableEq

/-- The fixed base endpoint and dataset identifier of the API URL
(line 25 of the source). -/
def apiBase : String :=
  "https://public.opendatasoft.com/api/records/1.0/search/?dataset=all-vehicles-model&q="

/-- QueryBuilder: the URL-building prefix of `fetchVehicles` (lines 25–54),
appending each clause under the same conditions and in the same order as
the source. -/
def buildQuery (make model sort : String) (year cylinders resultNb : Int) : String :=
  let u0 := apiBase
  let u1 := if resultNb ≠ 0 then u0 ++ ("&rows=" ++ toString resultNb) else u0 ++ "&rows=10"
  let u2 := if sort ≠ "" then u1 ++ ("&sort=" ++ sort) else u1
  let u3 := if make ≠ "" then u2 ++ ("&refine.make=" ++ make) else u2
  let u4 := if model ≠ "" then u3 ++ ("&refine.model=" ++ model) else u3
  let u5 := if year ≠ 0 then u4 ++ ("&refine.year=" ++ toString year) else u4
  let u6 := if cylinders ≠ 0 then u5 ++ ("&refine.cylinders=" ++ toString cylinders) else u5
  u6

/-- One `key=value` clause of the query string, tagged by which filter it
carries. -/
inductive Clause where
  | rows (n : Int)
  | sort (s : String)
  | make (s : String)
  | model (s : String)
  | year (n : Int)
  | cylinders (n : Int)
deriving Repr, DecidableEq

/-- Text of a clause exactly as the source appends it. -/
def renderClause : Clause → String
  | .rows n => "&rows=" ++ toString n
  | .sort s => "&sort=" ++ s
  | .make s => "&refine.make=" ++ s
  | .model s => "&refine.model=" ++ s
  | .year n => "&refine.year=" ++ toString n
  | .cylinders n => "&refine.cylinders=" ++ toString n

/-- Concatenation of rendered clauses, in order. -/
def renderClauses : List Clause → String
  | [] => ""
  | c :: cs => renderClause c ++ renderClauses cs

/-- The list of clauses `buildQuery` appends: one per `if` of the source,
in source order (rows, sort, make, model, year, cylinders). -/
def clauseList (make model sort : String) (year cylinders resultNb : Int) : List Clause :=
  [Clause.rows (if resultNb ≠ 0 then resultNb else 10)]
    ++ (if sort ≠ "" then [Clause.sort sort] else [])
    ++ (if make ≠ "" then [Clause.make make] else [])
    ++ (if model ≠ "" then [Clause.model model] else [])
    ++ (if year ≠ 0 then [Clause.year year] else [])
    ++ (if cylinders ≠ 0 then [Clause.cylinders cylinders] else [])

/-- Position of a clause kind in the fixed append order. -/
def clauseRank : Clause → Nat
  | .rows _ => 0
  | .sort _ => 1
  | .make _ => 2
  | .model _ => 3
  | .year _ => 4
  | .cylinders _ => 5

theorem toString_int_ten : toString (10 : Int) = "10" := rfl

theorem buildQuery_eq_renderClauses (make model sort : String) (year cylinders resultNb : Int) :
    buildQuery make model sort year cylinders resultNb
      = apiBase ++ renderClauses (clauseList make model sort year cylinders resultNb) := by
  by_cases hr : resultNb = 0 <;> by_cases hs : sort = "" <;> by_cases hk : make = "" <;>
    by_cases hm : model = "" <;> by_cases hy : year = 0 <;> by_cases hc : cylinders = 0 <;>
    simp [buildQuery, clauseList, renderClauses, renderClause, hr, hs, hk, hm, hy, hc,
      toString_int_ten, String.append_assoc]

/-- Claim C1: the query built by `buildQuery` is the base endpoint followed by
exactly the clauses of `clauseList`; each optional clause is present iff its
field is non-empty/non-zero (independently of the others), the rows clause
carries `resultNb` when nonzero and literal 10 otherwise, and the clauses
appear in the fixed order rows, sort, make, model, year, cylinders. -/
theorem buildQuery_clause_spec (make model sort : String) (year cylinders resultNb : Int) :
    buildQuery make model sort year cylinders resultNb
      = apiBase ++ renderClauses (clauseList make model sort year cylinders resultNb)
    ∧ (∀ n, Clause.rows n ∈ clauseList make model sort year cylinders resultNb ↔
        n = (if resultNb ≠ 0 then resultNb else 10))
    ∧ (∀ s, Clause.sort s ∈ clauseList make model sort year cylinders resultNb ↔
        sort ≠ "" ∧ s = sort)
    ∧ (∀ s, Clause.make s ∈ clauseList make model sort year cylinders resultNb ↔
        make ≠ "" ∧ s = make)
    ∧ (∀ s, Clause.model s ∈ clauseList make model sort year cylinders resultNb ↔
        model ≠ "" ∧ s = model)
    ∧ (∀ n, Clause.year n ∈ clauseList make model sort year cylinders resultNb ↔
        year ≠ 0 ∧ n = year)
    ∧ (∀ n, Clause.cylinders n ∈ clauseList make model sort year cylinders resultNb ↔
        cylinders ≠ 0 ∧ n = cylinders)
    ∧ List.Pairwise (fun a b => clauseRank a < clauseRank b)
        (clauseList make model sort year cylinders resultNb) := by
  refine ⟨buildQuery_eq_renderClauses make model sort year cylinders resultNb,
    ?_, ?_, ?_, ?_, ?_, ?_, ?_⟩
  · intro n
    simp [clauseList, List.mem_ite_nil_right, eq_comm]
  · intro s
    simp [clauseList, List.mem_ite_nil_right, eq_comm]
  · intro s
    simp [clauseList, List.mem_ite_nil_right, eq_comm]
  · intro s
    simp [clauseList, List.mem_ite_nil_right, eq_comm]
  · intro n
    simp [clauseList, List.mem_ite_nil_right, eq_comm]
  · intro n
    simp [clauseList, List.mem_ite_nil_right, eq_comm]
  · by_cases hs : sort = "" <;> by_cases hk : make = "" <;> by_cases hm : model = "" <;>
      by_cases hy : year = 0 <;> by_cases hc : cylinders = 0 <;>
      simp [clauseList, hs, hk, hm, hy, hc, List.pairwise_append, List.pairwise_cons,
        clauseRank]

/-- Errors of the decode phase of `fetchVehicles`. `malformedPayload` models
the `json.Unmarshal` failure (line 76), `unexpectedShape` the failed
`result["records"].([]interface\x7b\x7d)` assertion (line 82), and
`panicked` a Go runtime panic: the single-value assertion
`record.(map[string]interface\x7b\x7d)` on line 88 is not in comma-ok
position, so it panics (aborting the program) when a records element is not
an object. -/
inductive DecodeError where
  | malformedPayload : DecodeError
  | unexpectedShape : DecodeError
  | panicked : DecodeError
deriving Repr, DecidableEq

/-- Field extraction of lines 92–104: each text field by a comma-ok
`.(string)` assertion whose failure leaves the zero value `""`, and
`cylinders` by a comma-ok `.(float64)` assertion (zero value `0.0`)
followed by the truncating conversion `int(...)`. -/
def extractVehicle (data : List (String × Json)) : Vehicle :=
  { make := ((jlookup data "make").bind Json.asString).getD ""
  , model := ((jlookup data "model").bind Json.asString).getD ""
  , year := ((jlookup data "year").bind Json.asString).getD ""
  , cylinders := ratTrunc (((jlookup data "cylinders").bind Json.asNum).getD 0) }

/-- Modelled from the spec: extraction within a usable fields mapping as the
spec words it — `make`, `model`, `year` as text, each defaulting to the
empty string when the key is absent or not text-typed, and `cylinders` as a
number truncated toward zero, defaulting to 0 when absent or not numeric. -/
def specExtractVehicle (data : List (String × Json)) : Vehicle :=
  { make := match jlookup data "make" with
      | some (Json.str s) => s
      | _ => ""
  , model := match jlookup data "model" with
      | some (Json.str s) => s
      | _ => ""
  , year := match jlookup data "year" with
      | some (Json.str s) => s
      | _ => ""
  , cylinders := match jlookup data "cylinders" with
      | some (Json.num q) => ratTrunc q
      | _ => 0 }

/-- The record loop of lines 87–105. An element that is an object is looked
up for a `fields` sub-object: present, the extracted vehicle is prepended to
the rest; absent or not an object, the comma-ok assertion fails and the
element is skipped (`continue`). An element that is not an object makes the
single-value assertion `record.(map[string]interface\x7b\x7d)` panic,
modelled by `none`. -/
def decodeRecords : List Json → Option (List Vehicle)
  | [] => some []
  | r :: rest =>
    match r with
    | .obj o =>
      match (jlookup o "fields").bind Json.asObj with
      | some data => (decodeRecords rest).map (fun vs => extractVehicle data :: vs)
      | none => decodeRecords rest
    | _ => none

/-- The decode phase of `fetchVehicles` (lines 74–107). Its input models
the result of `json.Unmarshal` into `map[string]interface\x7b\x7d`: `none`
when the body does not unmarshal (yielding `malformedPayload`), otherwise
the top-level object. -/
def decodeBody (parsed : Option (List (String × Json))) : Except DecodeError (List Vehicle) :=
  match parsed with
  | none => .error .malformedPayload
  | some top =>
    match (jlookup top "records").bind Json.asArr with
    | none => .error .unexpectedShape
    | some recs =>
      match decodeRecords recs with
      | none => .error .panicked
      | some vs => .ok vs

/-- The vehicle a single records element contributes, if any: objects with a
usable `fields` sub-object contribute their extracted vehicle, objects
without one contribute nothing. (Non-object elements never reach this point
on a successful decode.) -/
def recordVehicle (r : Json) : Option Vehicle :=
  match r with
  | .obj o => ((jlookup o "fields").bind Json.asObj).map extractVehicle
  | _ => none

theorem bind_asString_getD (o : Option Json) :
    (o.bind Json.asString).getD ""
      = (match o with | some (Json.str s) => s | _ => "") := by
  cases o with
  | none => rfl
  | some j => cases j <;> rfl

theorem ratTrunc_zero : ratTrunc 0 = 0 := by decide

theorem bind_asNum_trunc (o : Option Json) :
    ratTrunc ((o.bind Json.asNum).getD 0)
      = (match o with | some (Json.num q) => ratTrunc q | _ => 0) := by
  cases o with
  | none => exact ratTrunc_zero
  | some j => cases j <;> first | rfl | exact ratTrunc_zero

/-- The complete `fields` object of the spec's decoder scenario. -/
def toyotaFields : List (String × Json) :=
  [("make", Json.str "Toyota"), ("model", Json.str "Corolla"),
   ("year", Json.str "2020"), ("cylinders", Json.num 4)]

/-- A records element wrapping `toyotaFields`. -/
def toyotaElem : Json := Json.obj [("fields", Json.obj toyotaFields)]

/-- The vehicle the decoder extracts from `toyotaFields`. -/
def toyotaVehicle : Vehicle := ⟨"Toyota", "Corolla", "2020", 4⟩

/-- Claim C2 (bug witness): an element that is an object missing `fields`
is skipped, as the spec's concrete scenario demands; but an element that is
not an object at all (here a bare string) makes the single-value type
assertion on line 88 panic — the decode aborts instead of skipping the
element, contradicting the claim's "whatever the element's actual shape". -/
theorem decodeRecords_skip_and_panic :
    decodeRecords [toyotaElem, Json.obj []] = some [toyotaVehicle]
    ∧ decodeRecords [toyotaElem, Json.str "junk"] = none := by
  constructor <;> rfl

/-- Claim C4 (bug witness): `decodeBody` fails with `malformedPayload`
exactly when the body does not unmarshal, and the parsed cases fail with
`unexpectedShape` exactly when the top level lacks a `records` key whose
value is a sequence; but a body that passes both top-level steps does not
always decode successfully — a non-object records element panics, so
per-element problems can abort the whole decode. -/
theorem decodeBody_top_level_and_panic :
    (∀ parsed, decodeBody parsed = Except.error DecodeError.malformedPayload ↔ parsed = none)
    ∧ (∀ top, decodeBody (some top) = Except.error DecodeError.unexpectedShape ↔
        (jlookup top "records").bind Json.asArr = none)
    ∧ decodeBody (some [("records", Json.arr [Json.str "junk"])])
        = Except.error DecodeError.panicked := by
  refine ⟨?_, ?_, rfl⟩
  · intro parsed
    cases parsed with
    | none => simp [decodeBody]
    | some top =>
      simp only [decodeBody]
      cases hrec : (jlookup top "records").bind Json.asArr with
      | none => simp
      | some recs =>
        cases hdec : decodeRecords recs with
        | none => simp [hdec]
        | some vs => simp [hdec]
  · intro top
    simp only [decodeBody]
    cases hrec : (jlookup top "records").bind Json.asArr with
    | none => simp
    | some recs =>
      cases hdec : decodeRecords recs with
      | none => simp [hdec, hrec]
      | some vs => simp [hdec, hrec]

/-- Claim C3: within a usable fields mapping the source's extraction agrees
with the spec's description — text fields default to `""` when absent or
not text-typed, `cylinders` is truncated toward zero and defaults to 0 when
absent or not numeric. -/
theorem extractVehicle_eq_spec (data : List (String × Json)) :
    extractVehicle data = specExtractVehicle data := by
  unfold extractVehicle specExtractVehicle
  rw [bind_asString_getD, bind_asString_getD, bind_asString_getD, bind_asNum_trunc]

/-- The character for a decimal digit. -/
def digitChar (d : Nat) : Char :=
  match d with
  | 0 => '0' | 1 => '1' | 2 => '2' | 3 => '3' | 4 => '4'
  | 5 => '5' | 6 => '6' | 7 => '7' | 8 => '8' | 9 => '9'
  | _ => '!'

/-- The decimal digit of a character, if any. -/
def charDigit (c : Char) : Option Nat :=
  if c = '0' then some 0 else if c = '1' then some 1 else if c = '2' then some 2
  else if c = '3' then some 3 else if c = '4' then some 4 else if c = '5' then some 5
  else if c = '6' then some 6 else if c = '7' then some 7 else if c = '8' then some 8
  else if c = '9' then some 9 else none

/-- Decimal rendering of a natural number (most significant digit first). -/
def natToStr (n : Nat) : String :=
  if n = 0 then "0" else String.mk (((Nat.digits 10 n).map digitChar).reverse)

/-- The digits of a character list, or `none` at the first non-digit. -/
def traverseDigits : List Char → Option (List Nat)
  | [] => some []
  | c :: cs =>
    match charDigit c with
    | none => none
    | some d => (traverseDigits cs).map (fun ds => d :: ds)

/-- Parse a non-empty, all-digit character list as a natural number. -/
def parseDigits (cs : List Char) : Option Nat :=
  if cs.isEmpty then none
  else (traverseDigits cs).map (fun ds => Nat.ofDigits 10 ds.reverse)

/-- Models `strconv.Itoa`: decimal rendering of a (possibly negative)
machine integer. -/
def intToStr (n : Int) : String :=
  if n < 0 then "-" ++ natToStr n.natAbs else natToStr n.natAbs

/-- Modelled from the spec: re-parsing a decimal-text column as an integer
(the fragment of `strconv.Atoi` the round trip exercises). -/
def strToInt (s : String) : Option Int :=
  if s.data.head? = some '-' then (parseDigits s.data.tail).map (fun m => -(Int.ofNat m))
  else (parseDigits s.data).map (fun m => Int.ofNat m)

/-- One console line per record, with the format of line 239 of the source. -/
def consoleLine (v : Vehicle) : String :=
  "Make: " ++ v.make ++ ", Model: " ++ v.model ++ ", Year: " ++ v.year
    ++ ", Cylinders: " ++ toString v.cylinders

/-- The console listing loop of `main` (lines 238–240). -/
def consoleLines : List Vehicle → List String
  | [] => []
  | v :: rest => consoleLine v :: consoleLines rest

/-- The CSV header row written on line 146. -/
def csvHeader : List String := ["Make", "Model", "Year", "Cylinders"]

/-- One CSV row per vehicle (lines 153–158), cylinders rendered with
`strconv.Itoa`. -/
def vehicleRow (v : Vehicle) : List String :=
  [v.make, v.model, v.year, intToStr v.cylinders]

/-- The row loop of `saveVehiclesToCSV` (lines 152–162). -/
def csvRowsOf : List Vehicle → List (List String)
  | [] => []
  | v :: rest => vehicleRow v :: csvRowsOf rest

/-- `json.MarshalIndent` on one `Vehicle`: an object keyed by the struct's
json tags, cylinders as a number. -/
def vehicleToJson (v : Vehicle) : Json :=
  Json.obj [("make", Json.str v.make), ("model", Json.str v.model),
            ("year", Json.str v.year), ("cylinders", Json.num (v.cylinders : Rat))]

/-- `json.MarshalIndent` on the vehicles slice: an array in slice order. -/
def marshalVehicles (vs : List Vehicle) : Json := Json.arr (vs.map vehicleToJson)

theorem decodeRecords_eq_filterMap (recs : List Json) (vs : List Vehicle)
    (h : decodeRecords recs = some vs) : vs = recs.filterMap recordVehicle := by
  induction recs generalizing vs with
  | nil =>
    simp only [decodeRecords, Option.some.injEq] at h
    simp [h.symm]
  | cons r rest ih =>
    cases r with
    | obj o =>
      simp only [decodeRecords] at h
      cases hf : (jlookup o "fields").bind Json.asObj with
      | some data =>
        rw [hf] at h
        cases hrest : decodeRecords rest with
        | none => rw [hrest] at h; simp at h
        | some vs' =>
          rw [hrest] at h
          injection h with h
          subst h
          simp [List.filterMap_cons, recordVehicle, hf, ih vs' hrest]
      | none =>
        rw [hf] at h
        simp [List.filterMap_cons, recordVehicle, hf, ih vs h]
    | null => simp [decodeRecords] at h
    | bool b => simp [decodeRecords] at h
    | num q => simp [decodeRecords] at h
    | str s => simp [decodeRecords] at h
    | arr l => simp [decodeRecords] at h

theorem consoleLines_eq_map (vs : List Vehicle) : consoleLines vs = vs.map consoleLine := by
  induction vs with
  | nil => rfl
  | cons v rest ih => simp [consoleLines, ih]

theorem csvRowsOf_eq_map (vs : List Vehicle) : csvRowsOf vs = vs.map vehicleRow := by
  induction vs with
  | nil => rfl
  | cons v rest ih => simp [csvRowsOf, ih]

/-- Typed fetch errors per the spec's taxonomy; the source returns
`fmt.Errorf` values whose messages are carried as the detail. -/
inductive FetchError where
  | transport (detail : String) : FetchError
  | remoteStatus (code : Nat) : FetchError
deriving Repr, DecidableEq

/-- Outcome of the HTTP GET of line 58, as `fetchVehicles` observes it: a
transport failure from `http.Get`, or a response with a status code and
the outcome of reading its body (`io.ReadAll`, line 69). -/
inductive HttpOutcome where
  | failure (detail : String) : HttpOutcome
  | response (status : Nat) (bodyRead : Except String String) : HttpOutcome

/-- The fetch phase of `fetchVehicles` (lines 58–72): a `http.Get` error is
a transport failure; then any status other than 200 (`http.StatusOK`) is a
remote-status error; then a body-read error is a transport failure;
otherwise the whole body is returned. -/
def fetchClassify : HttpOutcome → Except FetchError String
  | .failure d => .error (.transport ("failed to fetch data from external API: " ++ d))
  | .response st b =>
    if st ≠ 200 then .error (.remoteStatus st)
    else
      match b with
      | .error d => .error (.transport ("failed to read response body: " ++ d))
      | .ok body => .ok body

/-- Modelled from the spec: "HTTP-level success status", read as the 2xx
success class. -/
def isHttpSuccess (code : Nat) : Bool := decide (200 ≤ code) && decide (code < 300)

/-- Counterexample to claim C5: 204 No Content carries an HTTP-level
success status, yet the fetch does not succeed there — the source accepts
only status 200 and returns the remote-status error for every other code. -/
theorem fetch_success_iff_status_counterexample :
    isHttpSuccess 204 = true
    ∧ (fetchClassify (HttpOutcome.response 204 (Except.ok ""))).isOk = false
    ∧ fetchClassify (HttpOutcome.response 204 (Except.ok ""))
        = Except.error (FetchError.remoteStatus 204) := by
  refine ⟨rfl, rfl, rfl⟩

/-- Claim C5 (amended): the fetch succeeds exactly when the response status
is 200 (`http.StatusOK`); every response with any other status yields the
remote-status error carrying that code, and transport failures (failed GET,
failed body read) yield the transport error. -/
theorem fetchClassify_spec (st : Nat) (b d : String) :
    fetchClassify (HttpOutcome.response st (Except.ok b))
      = (if st = 200 then Except.ok b else Except.error (FetchError.remoteStatus st))
    ∧ fetchClassify (HttpOutcome.failure d)
        = Except.error (FetchError.transport ("failed to fetch data from external API: " ++ d))
    ∧ fetchClassify (HttpOutcome.response st (Except.error d))
        = (if st = 200
           then Except.error (FetchError.transport ("failed to read response body: " ++ d))
           else Except.error (FetchError.remoteStatus st)) := by
  refine ⟨?_, rfl, ?_⟩ <;> by_cases h : st = 200 <;> simp [fetchClassify, h]

/-- Typed export errors per the spec's taxonomy; the detail strings are the
messages of the source's `fmt.Errorf` calls. -/
inductive ExportError where
  | cannotCreateDestination (detail : String) : ExportError
  | writeFailure (detail : String) : ExportError
deriving Repr, DecidableEq

/-- File-system oracle for `saveVehiclesToJSON`: whether `os.Create`
succeeds and whether the single `file.Write` succeeds. -/
structure JsonDevice where
  createOk : Bool
  writeOk : Bool

/-- `saveVehiclesToJSON` (lines 110–132) over an explicit file-system
oracle. `json.MarshalIndent` cannot fail on `Vehicle` values, so
marshalling is total. The second component is the complete document that
reached the destination, if any: `file.Write` is unbuffered, so a
successful write delivers the document. -/
def saveVehiclesToJSON (vehicles : List Vehicle) (dev : JsonDevice) :
    Except ExportError Unit × Option Json :=
  if dev.createOk = false then
    (Except.error (ExportError.cannotCreateDestination "failed to create JSON file"), none)
  else if dev.writeOk = false then
    (Except.error (ExportError.writeFailure "failed to write JSON to file"), none)
  else (Except.ok (), some (marshalVehicles vehicles))

/-- File-system oracle for `saveVehiclesToCSV`: whether `os.Create`
succeeds, whether the buffered `csv.Writer` accepts the header and each row
(a `csv.Writer.Write` fails only when its buffered writer must spill and
the spill fails), and whether the final flush of the buffer to the file
succeeds. -/
structure CsvDevice where
  createOk : Bool
  headerOk : Bool
  rowOk : Nat → Bool
  flushOk : Bool

/-- The row loop of lines 152–162 over the oracle: the first failing row
write returns the source's write-failure error, otherwise the buffered
rows in order. -/
def writeCsvRows (vehicles : List Vehicle) (ok : Nat → Bool) (i : Nat) :
    Except ExportError (List (List String)) :=
  match vehicles with
  | [] => Except.ok []
  | v :: rest =>
    if ok i = false then Except.error (ExportError.writeFailure "failed to write row to CSV")
    else (writeCsvRows rest ok (i + 1)).map (fun rs => vehicleRow v :: rs)

/-- `saveVehiclesToCSV` (lines 134–166) over the oracle. The second
component is the complete document that reached the destination, if any.
The deferred `writer.Flush()` (line 143) returns nothing and
`writer.Error()` is never read, so when the flush fails the buffered
document is lost while the function still returns success. -/
def saveVehiclesToCSV (vehicles : List Vehicle) (dev : CsvDevice) :
    Except ExportError Unit × Option (List (List String)) :=
  if dev.createOk = false then
    (Except.error (ExportError.cannotCreateDestination "failed to create CSV file"), none)
  else if dev.headerOk = false then
    (Except.error (ExportError.writeFailure "failed to write header to CSV"), none)
  else
    match writeCsvRows vehicles dev.rowOk 0 with
    | Except.error e => (Except.error e, none)
    | Except.ok rows =>
      (Except.ok (), if dev.flushOk then some (csvHeader :: rows) else none)

/-- Claim C8 (bug witness): both exporters report creation failures as
`cannotCreateDestination` and write failures as `writeFailure`, and the
JSON exporter succeeds exactly when its document is delivered; but the CSV
exporter returns success even when the final flush fails and nothing
reaches the destination, because the outcome of the deferred
`csv.Writer` flush is never checked. -/
theorem export_error_reporting_and_flush_bug :
    saveVehiclesToJSON [toyotaVehicle] ⟨false, true⟩
      = (Except.error (ExportError.cannotCreateDestination "failed to create JSON file"), none)
    ∧ saveVehiclesToJSON [toyotaVehicle] ⟨true, false⟩
      = (Except.error (ExportError.writeFailure "failed to write JSON to file"), none)
    ∧ saveVehiclesToJSON [toyotaVehicle] ⟨true, true⟩
      = (Except.ok (), some (marshalVehicles [toyotaVehicle]))
    ∧ saveVehiclesToCSV [toyotaVehicle] ⟨false, true, fun _ => true, true⟩
      = (Except.error (ExportError.cannotCreateDestination "failed to create CSV file"), none)
    ∧ saveVehiclesToCSV [toyotaVehicle] ⟨true, true, fun _ => false, true⟩
      = (Except.error (ExportError.writeFailure "failed to write row to CSV"), none)
    ∧ saveVehiclesToCSV [toyotaVehicle] ⟨true, true, fun _ => true, true⟩
      = (Except.ok (), some (csvHeader :: csvRowsOf [toyotaVehicle]))
    ∧ saveVehiclesToCSV [toyotaVehicle] ⟨true, true, fun _ => true, false⟩
      = (Except.ok (), none) := by
  refine ⟨rfl, rfl, rfl, rfl, rfl, rfl, rfl⟩

/-- What a run of `main`'s display-and-export phase reports. -/
structure RunReport where
  noResultsMessage : Bool
  printed : List String
  jsonAttempted : Bool
  jsonError : Option ExportError
  jsonDelivered : Option Json
  csvAttempted : Bool
  csvError : Option ExportError
  csvDelivered : Option (List (List String))
  aborted : Bool

/-- The error a save reported, if any. -/
def errOf (r : Except ExportError Unit) : Option ExportError :=
  match r with
  | Except.error e => some e
  | Except.ok _ => none

/-- `main`'s display-and-export phase (lines 233–253): with no vehicles,
only the "no vehicles found" message; otherwise print every record, run the
JSON exporter, print its error if any, then run the CSV exporter
unconditionally and print its error if any. Nothing in this phase aborts
the program (`log.Fatalf` is reached only on a fetch/decode error, before
this phase). -/
def displayAndExport (vehicles : List Vehicle) (jdev : JsonDevice) (cdev : CsvDevice) :
    RunReport :=
  if vehicles.isEmpty then
    { noResultsMessage := true, printed := [], jsonAttempted := false, jsonError := none,
      jsonDelivered := none, csvAttempted := false, csvError := none, csvDelivered := none,
      aborted := false }
  else
    let jr := saveVehiclesToJSON vehicles jdev
    let cr := saveVehiclesToCSV vehicles cdev
    { noResultsMessage := false, printed := consoleLines vehicles, jsonAttempted := true,
      jsonError := errOf jr.1, jsonDelivered := jr.2, csvAttempted := true,
      csvError := errOf cr.1, csvDelivered := cr.2, aborted := false }

/-- Claim C7: for every non-empty decoded sequence both exporters are
attempted and the run is not aborted; each exporter's error is reported
exactly as that exporter returned it; and each exporter's reported outcome
is unchanged when the other exporter's device is replaced — the two
exports are independent. -/
theorem exporters_run_independently (vehicles : List Vehicle)
    (jdev jdev' : JsonDevice) (cdev cdev' : CsvDevice) (h : vehicles ≠ []) :
    (displayAndExport vehicles jdev cdev).jsonAttempted = true
    ∧ (displayAndExport vehicles jdev cdev).csvAttempted = true
    ∧ (displayAndExport vehicles jdev cdev).aborted = false
    ∧ (displayAndExport vehicles jdev cdev).jsonError
        = errOf (saveVehiclesToJSON vehicles jdev).1
    ∧ (displayAndExport vehicles jdev cdev).csvError
        = errOf (saveVehiclesToCSV vehicles cdev).1
    ∧ (displayAndExport vehicles jdev cdev).csvError
        = (displayAndExport vehicles jdev' cdev).csvError
    ∧ (displayAndExport vehicles jdev cdev).csvDelivered
        = (displayAndExport vehicles jdev' cdev).csvDelivered
    ∧ (displayAndExport vehicles jdev cdev).jsonError
        = (displayAndExport vehicles jdev cdev').jsonError := by
  have hne : vehicles.isEmpty = false := by
    cases vehicles with
    | nil => exact absurd rfl h
    | cons v rest => rfl
  simp [displayAndExport, hne]

/-- Witness for claim C7: one vehicle, an unwritable JSON destination and a
fully writable CSV destination — the CSV export still completes, and the
error is reported for the JSON exporter only. -/
theorem exporters_run_independently_witness :
    (displayAndExport [toyotaVehicle] ⟨false, true⟩
        ⟨true, true, fun _ => true, true⟩).csvError = none
    ∧ (displayAndExport [toyotaVehicle] ⟨false, true⟩
        ⟨true, true, fun _ => true, true⟩).jsonError
        = some (ExportError.cannotCreateDestination "failed to create JSON file") := by
  have h := exporters_run_independently [toyotaVehicle] ⟨false, true⟩ ⟨true, true⟩
    ⟨true, true, fun _ => true, true⟩ ⟨true, true, fun _ => true, true⟩ (by simp)
  refine ⟨h.2.2.2.2.1.trans rfl, h.2.2.2.1.trans rfl⟩

/-- Claim C6: a successful decode returns exactly the usable records'
vehicles in source order (an order-preserving filterMap of the records
sequence), and neither the console listing, the CSV row loop, nor the JSON
marshalling reorders the sequence — each is the element-wise image of the
vehicle list. -/
theorem decode_order_preserved (recs : List Json) (vs : List Vehicle)
    (h : decodeRecords recs = some vs) :
    vs = recs.filterMap recordVehicle
    ∧ consoleLines vs = vs.map consoleLine
    ∧ csvRowsOf vs = vs.map vehicleRow
    ∧ marshalVehicles vs = Json.arr (vs.map vehicleToJson) := by
  exact ⟨decodeRecords_eq_filterMap recs vs h, consoleLines_eq_map vs,
    csvRowsOf_eq_map vs, rfl⟩

/-- Witness for claim C6 at a concrete decode. -/
theorem decode_order_preserved_witness :
    [toyotaVehicle] = [toyotaElem, Json.obj []].filterMap recordVehicle
    ∧ consoleLines [toyotaVehicle] = [toyotaVehicle].map consoleLine
    ∧ csvRowsOf [toyotaVehicle] = [toyotaVehicle].map vehicleRow
    ∧ marshalVehicles [toyotaVehicle] = Json.arr ([toyotaVehicle].map vehicleToJson) :=
  decode_order_preserved [toyotaElem, Json.obj []] [toyotaVehicle] rfl

theorem charDigit_digitChar : ∀ d < 10, charDigit (digitChar d) = some d := by decide

theorem digitChar_ne_dash : ∀ d < 10, digitChar d ≠ '-' := by decide

theorem traverseDigits_map_digitChar (ds : List Nat) (h : ∀ d ∈ ds, d < 10) :
    traverseDigits (ds.map digitChar) = some ds := by
  induction ds with
  | nil => rfl
  | cons d rest ih =>
    have hc : charDigit (digitChar d) = some d :=
      charDigit_digitChar d (h d (List.mem_cons_self d rest))
    simp [traverseDigits, hc, ih (fun x hx => h x (List.mem_cons_of_mem d hx))]

theorem parseDigits_natToStr (n : Nat) : parseDigits (natToStr n).data = some n := by
  by_cases h : n = 0
  · subst h; rfl
  · have hds : ∀ d ∈ Nat.digits 10 n, d < 10 :=
      fun d hd => Nat.digits_lt_base (by norm_num) hd
    have hne : Nat.digits 10 n ≠ [] := Nat.digits_ne_nil_iff_ne_zero.mpr h
    unfold natToStr parseDigits
    rw [if_neg h]
    have hdata : (String.mk (((Nat.digits 10 n).map digitChar).reverse)).data
        = ((Nat.digits 10 n).reverse.map digitChar) := by
      simp [List.map_reverse]
    rw [hdata]
    rw [if_neg (by simp [List.isEmpty_iff]; exact hne)]
    rw [traverseDigits_map_digitChar ((Nat.digits 10 n).reverse)
      (fun d hd => hds d (List.mem_reverse.mp hd))]
    simp [Nat.ofDigits_digits]

theorem natToStr_head (m : Nat) :
    ∃ c rest, (natToStr m).data = digitChar c :: rest ∧ c < 10 := by
  by_cases h : m = 0
  · exact ⟨0, [], by simp [h, natToStr]; rfl, by norm_num⟩
  · have hne : Nat.digits 10 m ≠ [] := Nat.digits_ne_nil_iff_ne_zero.mpr h
    cases hrev : (Nat.digits 10 m).reverse with
    | nil => exact absurd (by simpa using congrArg List.reverse hrev) hne
    | cons d t =>
      have hd : d ∈ Nat.digits 10 m := by
        have hmem : d ∈ (Nat.digits 10 m).reverse := by
          rw [hrev]; exact List.mem_cons_self d t
        exact List.mem_reverse.mp hmem
      refine ⟨d, t.map digitChar, ?_, Nat.digits_lt_base (by norm_num) hd⟩
      unfold natToStr
      rw [if_neg h]
      show ((Nat.digits 10 m).map digitChar).reverse = digitChar d :: t.map digitChar
      rw [← List.map_reverse, hrev]
      rfl

/-- Decimal print/parse round trip for machine integers, as claimed for the
cylinders column of the CSV round trip. -/
theorem strToInt_intToStr (n : Int) : strToInt (intToStr n) = some n := by
  by_cases hn : n < 0
  · have hdata : (intToStr n).data = '-' :: (natToStr n.natAbs).data := by
      unfold intToStr
      rw [if_pos hn]
      rfl
    unfold strToInt
    rw [hdata]
    simp only [List.head?_cons, List.tail_cons]
    rw [if_pos trivial, parseDigits_natToStr]
    simp only [Option.map_some', Option.some.injEq, Int.ofNat_eq_natCast]
    omega
  · obtain ⟨c, rest, hcr, hc⟩ := natToStr_head n.natAbs
    have hdata : (intToStr n).data = digitChar c :: rest := by
      unfold intToStr
      rw [if_neg hn]
      exact hcr
    unfold strToInt
    rw [hdata]
    rw [if_neg (by simp [digitChar_ne_dash c hc])]
    rw [← hcr, parseDigits_natToStr]
    simp only [Option.map_some', Option.some.injEq, Int.ofNat_eq_natCast]
    omega

/-- Modelled from the spec: re-parsing one object of the document the
StructuredExporter produced — the four fields by key, cylinders as an
integer-valued number. -/
def jsonParseVehicle (j : Json) : Option Vehicle :=
  match j with
  | Json.obj o =>
    match jlookup o "make", jlookup o "model", jlookup o "year", jlookup o "cylinders" with
    | some (Json.str mk), some (Json.str md), some (Json.str yr), some (Json.num c) =>
      if c.den = 1 then some ⟨mk, md, yr, c.num⟩ else none
    | _, _, _, _ => none
  | _ => none

/-- Modelled from the spec: re-parsing a list of exported objects, failing
on any non-conforming element. -/
def jsonParseList : List Json → Option (List Vehicle)
  | [] => some []
  | j :: rest =>
    match jsonParseVehicle j with
    | none => none
    | some v => (jsonParseList rest).map (fun vs => v :: vs)

/-- Modelled from the spec: re-parsing the full document the
StructuredExporter produced (an array of objects). -/
def jsonParseVehicles (j : Json) : Option (List Vehicle) :=
  match j with
  | Json.arr elems => jsonParseList elems
  | _ => none

/-- Modelled from the spec: re-parsing one CSV row, the cylinders column
reparsed from decimal text to an integer. -/
def csvParseRow (row : List String) : Option Vehicle :=
  match row with
  | [mk, md, yr, cy] => (strToInt cy).map (fun c => ⟨mk, md, yr, c⟩)
  | _ => none

/-- Modelled from the spec: re-parsing the data rows of the CSV document. -/
def csvParseRows : List (List String) → Option (List Vehicle)
  | [] => some []
  | r :: rest =>
    match csvParseRow r with
    | none => none
    | some v => (csvParseRows rest).map (fun vs => v :: vs)

/-- Modelled from the spec: re-parsing the document the TabularExporter
produced — the header row followed by one row per record. -/
def csvParseDoc (doc : List (List String)) : Option (List Vehicle) :=
  match doc with
  | [] => none
  | hdr :: rows => if hdr = csvHeader then csvParseRows rows else none

theorem jsonParseVehicle_toJson (v : Vehicle) : jsonParseVehicle (vehicleToJson v) = some v := by
  show (if ((v.cylinders : Rat)).den = 1
      then some ⟨v.make, v.model, v.year, ((v.cylinders : Rat)).num⟩
      else none) = some v
  rw [if_pos (Rat.den_intCast v.cylinders), Rat.num_intCast]

theorem jsonParseList_map (vs : List Vehicle) :
    jsonParseList (vs.map vehicleToJson) = some vs := by
  induction vs with
  | nil => rfl
  | cons v rest ih => simp [jsonParseList, jsonParseVehicle_toJson, ih]

theorem csvParseRow_vehicleRow (v : Vehicle) : csvParseRow (vehicleRow v) = some v := by
  simp [csvParseRow, vehicleRow, strToInt_intToStr]

theorem csvParseRows_map (vs : List Vehicle) :
    csvParseRows (vs.map vehicleRow) = some vs := by
  induction vs with
  | nil => rfl
  | cons v rest ih => simp [csvParseRows, csvParseRow_vehicleRow, ih]

theorem writeCsvRows_all_ok (vs : List Vehicle) (i : Nat) :
    writeCsvRows vs (fun _ => true) i = Except.ok (csvRowsOf vs) := by
  induction vs generalizing i with
  | nil => rfl
  | cons v rest ih => simp [writeCsvRows, csvRowsOf, ih, Except.map]

/-- Claim C9: serializing any sequence of records with the JSON exporter
and re-parsing the produced document yields the same sequence, and likewise
for the CSV exporter once the cylinders column is reparsed from decimal
text to an integer; both round trips preserve order, and the parsed
documents are exactly what the successful exporters deliver. -/
theorem export_round_trip (vs : List Vehicle) :
    jsonParseVehicles (marshalVehicles vs) = some vs
    ∧ csvParseDoc (csvHeader :: csvRowsOf vs) = some vs
    ∧ (saveVehiclesToJSON vs ⟨true, true⟩).2 = some (marshalVehicles vs)
    ∧ (saveVehiclesToCSV vs ⟨true, true, fun _ => true, true⟩).2
        = some (csvHeader :: csvRowsOf vs) := by
  refine ⟨?_, ?_, rfl, ?_⟩
  · simpa [jsonParseVehicles, marshalVehicles] using jsonParseList_map vs
  · simp [csvParseDoc, csvRowsOf_eq_map, csvParseRows_map]
  · simp [saveVehiclesToCSV, writeCsvRows_all_ok]

/-- The validated filter criteria `main` collects before the fetch. -/
structure FilterCriteria where
  make : String
  model : String
  sortField : String
  year : Int
  cylinders : Int
  resultLimit : Int
deriving Repr, DecidableEq

/-- The user's successive prompt answers: one for the make prompt, one for
the (conditional) model prompt, and the successive attempts for each
validated loop. -/
structure UserInputs where
  makeInput : String
  modelInput : String
  yearInputs : List Int
  cylindersInputs : List Int
  resultNbInputs : List Int
  sortInputs : List String

/-- The year-loop exit test of line 187. -/
def yearValid (y : Int) : Bool := y == 0 || (y ≥ 1980 && y ≤ 2025)

/-- The cylinders-loop exit test of line 199. -/
def cylindersValid (c : Int) : Bool :=
  (c == 0 || (c ≥ 3 && c ≤ 6)) || c == 8 || c == 10 || c == 12 || c == 16

/-- The result-count-loop exit test of line 211. -/
def resultNbValid (r : Int) : Bool := r ≥ 0 && r ≤ 50

/-- The sort-loop exit test of line 222. -/
def sortFieldValid (s : String) : Bool :=
  s == "" || s == "make" || s == "model" || s == "year" || s == "cylinders"

/-- `main`'s prompt phase (lines 168–226): the model is asked for only when
the make is non-empty (otherwise it keeps its zero value `""`), and each
loop repeats until its exit test passes — modelled by the first valid
attempt in the supplied list, `none` standing for a run that never reaches
the fetch because some loop never receives valid input. -/
def collectCriteria (u : UserInputs) : Option FilterCriteria :=
  let mk := u.makeInput
  let md := if mk ≠ "" then u.modelInput else ""
  (u.yearInputs.find? yearValid).bind fun y =>
    (u.cylindersInputs.find? cylindersValid).bind fun c =>
      (u.resultNbInputs.find? resultNbValid).bind fun r =>
        (u.sortInputs.find? sortFieldValid).map fun s =>
          ⟨mk, md, s, y, c, r⟩

/-- Claim C10: in every run that reaches the fetch, the model filter was
collected only when the make was non-empty, so the collected model is empty
whenever the make is; consequently the query such a run issues never
carries a model clause without also carrying the make clause, even though
`buildQuery` itself treats the two fields independently. -/
theorem collected_model_requires_make (u : UserInputs) (c : FilterCriteria)
    (h : collectCriteria u = some c) :
    (c.make = "" → c.model = "")
    ∧ (∀ m, Clause.model m ∈
          clauseList c.make c.model c.sortField c.year c.cylinders c.resultLimit →
        Clause.make c.make ∈
          clauseList c.make c.model c.sortField c.year c.cylinders c.resultLimit) := by
  simp only [collectCriteria, Option.bind_eq_some, Option.map_eq_some'] at h
  obtain ⟨y, hy, cyl, hcyl, r, hr, s, hs, hc⟩ := h
  subst hc
  constructor
  · intro hmk
    have hmk' : u.makeInput = "" := hmk
    show (if u.makeInput ≠ "" then u.modelInput else "") = ""
    rw [if_neg (by simp [hmk'])]
  · intro m hm
    have hmodel : (if u.makeInput ≠ "" then u.modelInput else "") ≠ "" := by
      intro hemp
      simp [clauseList, hemp, List.mem_ite_nil_right] at hm
    have hmk : u.makeInput ≠ "" := by
      intro he
      exact hmodel (by simp [he])
    simp [clauseList, List.mem_ite_nil_right, hmk]

/-- Witness for claim C10 at a concrete prompt transcript: the user skips
the make prompt, so the model prompt is skipped and the collected model
stays empty. -/
theorem collected_model_requires_make_witness :
    ((⟨"", "", "", 0, 0, 10⟩ : FilterCriteria).make = ""
      → (⟨"", "", "", 0, 0, 10⟩ : FilterCriteria).model = "")
    ∧ (∀ m, Clause.model m ∈ clauseList "" "" "" 0 0 10 →
        Clause.make "" ∈ clauseList "" "" "" 0 0 10) :=
  collected_model_requires_make ⟨"", "Corolla", [0], [0], [10], [""]⟩
    ⟨"", "", "", 0, 0, 10⟩ rfl
